import Mathlib

/-!
Shallow embedding of the program in `src/merge_codebase_to_xml.py`.

The program is a linear pipeline: parse CLI arguments, collect file paths
(recursive directory scan unioned with an explicit file list), build an XML
element tree with one `<file>` record per collected path, pretty-print it and
write it to the output path.

Filesystem interaction (`Path.rglob`, `Path.is_file`, `Path.resolve`,
`Path.read_text`, `Path.exists`, `Path.mkdir`, `Path.write_text`) is modelled
by an abstract record of functions `FS`; paths are modelled as the normalized
strings that `pathlib.PurePath` stores (pathlib collapses duplicate and
trailing slashes at construction, so `Path` equality is equality of these
strings).  Fallible operations return `Except`, the error value carrying the
description that Python would render for the caught exception.
-/

namespace MergeXml

/-- Log levels of the `logging` calls in the script (`logging.basicConfig`
is set to INFO, so all three levels are emitted). -/
inductive LogLevel where
  | info
  | warning
  | error
deriving DecidableEq, Repr

/-- Abstract filesystem, one field per `pathlib` primitive the script uses.
`rglobEntries d` is the list of entries yielded by `Path(d).rglob('*')` in
traversal order (pathlib yields every entry under `d` — files, directories,
symlinks; on a path that does not exist or is not a directory it yields
nothing).  `readText p` models `Path(p).read_text(encoding="utf-8")`:
`Except.ok` the decoded text, or `Except.error` with the exception's
description.  `writeFile p` models whether `Path(p).write_text(...)` succeeds. -/
structure FS where
  rglobEntries : String → List String
  isFile : String → Bool
  resolve : String → String
  readText : String → Except String String
  pathExists : String → Bool
  parent : String → String
  mkdir : String → Except String Unit
  writeFile : String → Except String Unit

/-- The module-level constant `EXTENSIONS` (a Python `set`; modelled as a
list, membership being all the program uses). -/
def EXTENSIONS : List String := [".py", ".ts", ".jsx", ".js", ".tsx"]

/-- Splitting a character list at every occurrence of a separator (the
groups, in order; adjacent separators give empty groups, as Python's
`str.split(sep)`). -/
def splitOnChar (sep : Char) : List Char → List (List Char)
  | [] => [[]]
  | c :: cs =>
    let r := splitOnChar sep cs
    if c = sep then [] :: r
    else
      match r with
      | [] => [[c]]
      | g :: gs => (c :: g) :: gs

/-- ASCII lower-casing of a string, modelling `str.lower()` (the extension
set is pure ASCII, so only ASCII case folding can affect membership). -/
def strToLower (s : String) : String :=
  String.mk (s.data.map Char.toLower)

/-- Last component of a normalized path string, as `PurePath.name`
(empty for the filesystem root). -/
def pathName (p : String) : String :=
  String.mk ((splitOnChar '/' p.data).getLastD [])

/-- The extension of the last component, as `PurePath.suffix`: the substring
from the last dot onward, provided that dot is neither the first nor the last
character of the name; otherwise the empty string. -/
def pathSuffix (p : String) : String :=
  let parts := splitOnChar '.' (pathName p).data
  match parts with
  | [] => ""
  | [_] => ""
  | _ =>
    let ext := parts.getLastD []
    let stem := List.intercalate ['.'] parts.dropLast
    if stem.length > 0 && ext.length > 0 then String.mk ('.' :: ext) else ""

/-- `get_target_files` of the script: every entry yielded by
`input_dir.rglob('*')` whose lower-cased suffix is in `extensions`
(no regular-file check). -/
def get_target_files (fs : FS) (input_dir : String) (extensions : List String) :
    List String :=
  (fs.rglobEntries input_dir).filter fun p => extensions.contains (strToLower (pathSuffix p))

/-- Warning text logged by `filter_files_by_extension` for a matching entry
that is not a regular file (the script wraps the path in single quotes). -/
def warnMsg (file : String) : String :=
  "\x27" ++ file ++ "\x27 is not a valid file and will be skipped."

/-- `filter_files_by_extension` of the script.  First component: the kept
files, resolved, in input order.  Second component: the warning messages
logged, in input order.  An entry with a non-matching extension is dropped
silently; a matching entry that is not a regular file is dropped with a
warning; a matching regular file is kept as `file.resolve()`. -/
def filter_files_by_extension (fs : FS) :
    List String → List String → List String × List String
  | [], _ => ([], [])
  | file :: rest, extensions =>
    let r := filter_files_by_extension fs rest extensions
    if extensions.contains (strToLower (pathSuffix file)) then
      if fs.isFile file then (fs.resolve file :: r.1, r.2)
      else (r.1, warnMsg file :: r.2)
    else r

/-- An `xml.etree.ElementTree.Element`: tag, attribute list, `.text`, and
child elements.  The script never sets attributes or tails. -/
inductive Element where
  | mk (tag : String) (attrs : List (String × String)) (innerText : Option String)
      (children : List Element)

/-- Tag of an element. -/
def Element.tag : Element → String
  | .mk t _ _ _ => t

/-- Attribute list of an element. -/
def Element.attrs : Element → List (String × String)
  | .mk _ a _ _ => a

/-- The `.text` of an element. -/
def Element.innerText : Element → Option String
  | .mk _ _ x _ => x

/-- Child elements of an element. -/
def Element.children : Element → List Element
  | .mk _ _ _ c => c

/-- First child with the given tag, if any. -/
def Element.findChild (t : String) (e : Element) : Option Element :=
  e.children.find? fun c => c.tag == t

/-- The `contents` string computed inside `create_xml_structure`'s loop:
the file's UTF-8 text, or the error placeholder built from the caught
exception's description. -/
def contentsString (fs : FS) (p : String) : String :=
  match fs.readText p with
  | Except.ok c => c
  | Except.error e => "Error reading file: " ++ e

/-- One iteration of `create_xml_structure`'s loop: the `<file>` element built
for one collected path — `<filename>` is `file_path.name`, `<filepath>` is
`str(file_path.resolve())`, `<contents>` is `contentsString`. -/
def fileElement (fs : FS) (p : String) : Element :=
  Element.mk "file" [] none
    [Element.mk "filename" [] (some (pathName p)) [],
     Element.mk "filepath" [] (some (fs.resolve p)) [],
     Element.mk "contents" [] (some (contentsString fs p)) []]

/-- `create_xml_structure` of the script: a `<codebase>` root with one
`<file>` child per collected path, in iteration order. -/
def create_xml_structure (fs : FS) (files : List String) : Element :=
  Element.mk "codebase" [] none (files.map (fileElement fs))

/-- Text escaping performed by `minidom`'s serializer on text nodes. -/
def xmlEscape (s : String) : String :=
  s.foldr
    (fun c acc =>
      (match c with
       | '&' => "&amp;"
       | '<' => "&lt;"
       | '>' => "&gt;"
       | '\"' => "&quot;"
       | _ => String.singleton c) ++ acc) ""

mutual

/-- `minidom.Element.writexml` with `addindent="  "` and `newl="\n"`, after the
round trip `ET.tostring` / `minidom.parseString` of `prettify_xml`: a non-empty
`.text` of a childless element becomes its single Text child and is written
inline; an element with no (surviving) children is written `<tag/>`; otherwise
children are written on their own lines, indented two further spaces. -/
def writexmlOne (ind : String) : Element → String
  | Element.mk tag _ innerText children =>
    let textChild : Option String :=
      match innerText with
      | some c => if c = "" then none else some c
      | none => none
    match textChild, children with
    | none, [] => ind ++ "<" ++ tag ++ "/>\n"
    | some c, [] => ind ++ "<" ++ tag ++ ">" ++ xmlEscape c ++ "</" ++ tag ++ ">\n"
    | tc, cs =>
      ind ++ "<" ++ tag ++ ">\n" ++
      (match tc with
       | some c => ind ++ "  " ++ xmlEscape c ++ "\n"
       | none => "") ++
      writexmlList (ind ++ "  ") cs ++
      ind ++ "</" ++ tag ++ ">\n"

/-- Serialization of a list of sibling elements. -/
def writexmlList (ind : String) : List Element → String
  | [] => ""
  | e :: es => writexmlOne ind e ++ writexmlList ind es

end

/-- `prettify_xml` of the script: XML declaration plus the pretty-printed
tree (`minidom.toprettyxml(indent="  ")`). -/
def prettify_xml (e : Element) : String :=
  "<?xml version=\"1.0\" ?>\n" ++ writexmlOne "" e

/-- The parsed argument namespace (after `argparse` succeeded):
`input_dir` is `None` or the given path, `file` is `None` or the list
accumulated by `action='append'`, `output_file` is required. -/
structure Args where
  input_dir : Option String
  file : Option (List String)
  output_file : String

/-- Python truthiness of `args.file`: `None` and the empty list are falsy. -/
def argGiven : Option (List String) → Bool
  | none => false
  | some l => !l.isEmpty

/-- `parse_arguments` of the script, as a function of which options were
supplied.  `argparse` exits with status 2 and a message on standard error when
the required `--output-file` is missing; `parser.error` does the same for the
script's own check that at least one of `--input-dir` / `--file` was given. -/
def parse_arguments (input_dir : Option String) (file : Option (List String))
    (output_file : Option String) : Except (Nat × String) Args :=
  match output_file with
  | none => Except.error (2, "the following arguments are required: --output-file")
  | some out =>
    if input_dir.isNone && !argGiven file then
      Except.error (2, "At least one of --input-dir or --file must be specified.")
    else
      Except.ok ⟨input_dir, file, out⟩

/-- Observable outcome of one run: the process exit code, the output file
written (path and rendered text, `none` when no successful write happened),
the `logging` stream as (level, message) pairs, and the message `argparse`
printed to standard error on a usage failure. -/
structure ProcResult where
  exitCode : Nat
  written : Option (String × String)
  log : List (LogLevel × String)
  stderrMsg : Option String

/-- Directory-scan part of `main`'s collection: `get_target_files` when
`args.input_dir` is truthy, nothing otherwise. -/
def scanResult (fs : FS) (args : Args) : List String :=
  match args.input_dir with
  | some d => get_target_files fs d EXTENSIONS
  | none => []

/-- Explicit-file part of `main`'s collection (files kept, warnings logged):
`filter_files_by_extension` when `args.file` is truthy, nothing otherwise. -/
def indivResult (fs : FS) (args : Args) : List String × List String :=
  if argGiven args.file then filter_files_by_extension fs (args.file.getD []) EXTENSIONS
  else ([], [])

/-- `main`'s accumulation set `all_target_files`: the union of the two
sub-operations' results with duplicate path values removed (a Python `set`
of `Path` objects is keyed by the normalized path string). -/
def collect (fs : FS) (args : Args) : List String :=
  (scanResult fs args ++ (indivResult fs args).1).dedup

/-- The log entries `main` emits while collecting files (the scan's two info
lines, then the explicit-file warnings and info line).  The rendering of the
Python set in the first message is abbreviated; no property depends on it. -/
def collectLog (fs : FS) (args : Args) : List (LogLevel × String) :=
  (match args.input_dir with
   | some d =>
     [(LogLevel.info, "Scanning directory: " ++ d ++ " for files with extensions: "
        ++ String.intercalate ", " EXTENSIONS),
      (LogLevel.info, "Found " ++ toString (get_target_files fs d EXTENSIONS).length
        ++ " files in directory.")]
   | none => []) ++
  (if argGiven args.file then
     (indivResult fs args).2.map (fun w => (LogLevel.warning, w)) ++
     [(LogLevel.info, "Adding " ++ toString (indivResult fs args).1.length
        ++ " individual files.")]
   else [])

/-- Final stage of `main`: the guarded `write_text` call.  On failure the
exception is caught, logged as an error, and `main` falls off the end
(exit code 0). -/
def writeStep (fs : FS) (outputFile pretty : String) (log : List (LogLevel × String)) :
    ProcResult :=
  let log3 := log ++ [(LogLevel.info, "Writing to output file: " ++ outputFile)]
  match fs.writeFile outputFile with
  | Except.ok _ =>
    { exitCode := 0, written := some (outputFile, pretty), stderrMsg := none,
      log := log3 ++ [(LogLevel.info, "XML file creation complete.")] }
  | Except.error e =>
    { exitCode := 0, written := none, stderrMsg := none,
      log := log3 ++ [(LogLevel.error,
        "Error writing to output file " ++ outputFile ++ ": " ++ e)] }

/-- Output stage of `main`: if the output file's parent directory does not
exist it is created (`mkdir(parents=True, exist_ok=True)`); a creation failure
is caught, logged as an error, and `main` returns (exit code 0) without
attempting the write. -/
def writeOutput (fs : FS) (outputFile pretty : String) (log : List (LogLevel × String)) :
    ProcResult :=
  let outputDir := fs.parent outputFile
  if fs.pathExists outputDir then
    writeStep fs outputFile pretty log
  else
    match fs.mkdir outputDir with
    | Except.ok _ =>
      writeStep fs outputFile pretty
        (log ++ [(LogLevel.info, "Created output directory: " ++ outputDir)])
    | Except.error e =>
      { exitCode := 0, written := none, stderrMsg := none,
        log := log ++ [(LogLevel.error,
          "Error creating output directory " ++ outputDir ++ ": " ++ e)] }

/-- `main` after argument parsing: collect the files; on an empty collection
log a warning and return (no output file, exit code 0); otherwise build the
tree, pretty-print it, and run the output stage. -/
def mainRun (fs : FS) (args : Args) : ProcResult :=
  let all := collect fs args
  let baseLog := collectLog fs args ++
    [(LogLevel.info, "Total unique files to process: " ++ toString all.length)]
  if all.isEmpty then
    { exitCode := 0, written := none, stderrMsg := none,
      log := baseLog ++ [(LogLevel.warning, "No files to process. Exiting.")] }
  else
    writeOutput fs args.output_file (prettify_xml (create_xml_structure fs all))
      (baseLog ++ [(LogLevel.info, "Creating XML structure..."),
                   (LogLevel.info, "Generating pretty XML...")])

/-- The whole process (`if __name__ == "__main__": main()`): a usage error from
argument parsing exits with the parser's status and message on standard error;
otherwise `main` runs and the process exits 0 (no exception escapes `main`). -/
def main (fs : FS) (input_dir : Option String) (file : Option (List String))
    (output_file : Option String) : ProcResult :=
  match parse_arguments input_dir file output_file with
  | Except.error pe =>
    { exitCode := pe.1, written := none, stderrMsg := some pe.2, log := [] }
  | Except.ok args => mainRun fs args

/-- The `<filepath>` text of a `<file>` record element. -/
def recordFilepath (e : Element) : Option String :=
  (e.findChild "filepath").bind Element.innerText

/-- Number of `<file>` records in a document whose `<filepath>` text is r. -/
def countRecordsWithFilepath (doc : Element) (r : String) : Nat :=
  (doc.children.filter fun f => recordFilepath f == some r).length

/-- Filesystem used by the C2/C3 witnesses: every path resolves to itself,
`a.py` reads as `print(1)`, `bad.py` fails to read with description `boom`. -/
def fsWitness : FS where
  rglobEntries := fun _ => []
  isFile := fun _ => true
  resolve := fun p => p
  readText := fun p =>
    if p = "bad.py" then Except.error "boom" else Except.ok "print(1)"
  pathExists := fun _ => true
  parent := fun _ => "."
  mkdir := fun _ => Except.ok ()
  writeFile := fun _ => Except.ok ()

/-- Filesystem exhibiting the C1 failure: scanning `dir` yields the relative
entry `dir/a.py`, a regular file whose resolved absolute form is
`/abs/dir/a.py`; resolution is idempotent on the absolute form. -/
def fsC1 : FS where
  rglobEntries := fun d => if d = "dir" then ["dir/a.py"] else []
  isFile := fun p => p = "dir/a.py"
  resolve := fun p => if p = "dir/a.py" then "/abs/dir/a.py" else p
  readText := fun _ => Except.ok "print(1)"
  pathExists := fun _ => true
  parent := fun _ => "."
  mkdir := fun _ => Except.ok ()
  writeFile := fun _ => Except.ok ()

/-- Invocation reaching the same file both ways:
`--input-dir dir --file dir/a.py --output-file out.xml`. -/
def argsC1 : Args := ⟨some "dir", some ["dir/a.py"], "out.xml"⟩

/-- Filesystem for the C4 witness: one matching file under `dir`, output
parent directory missing and its creation failing. -/
def fsC4 : FS where
  rglobEntries := fun d => if d = "dir" then ["dir/a.py"] else []
  isFile := fun _ => false
  resolve := fun p => p
  readText := fun _ => Except.ok "x"
  pathExists := fun _ => false
  parent := fun _ => "out"
  mkdir := fun _ => Except.error "Permission denied"
  writeFile := fun _ => Except.ok ()

/-- Invocation for the C4 witness: `--input-dir dir --output-file out/code.xml`. -/
def argsC4 : Args := ⟨some "dir", none, "out/code.xml"⟩

/-- Filesystem for the C7/C10 witnesses: nothing exists at all, so scanning
any directory (in particular a nonexistent one) yields no entries. -/
def fsC10 : FS where
  rglobEntries := fun _ => []
  isFile := fun _ => false
  resolve := fun p => p
  readText := fun _ => Except.error "unreadable"
  pathExists := fun _ => false
  parent := fun _ => "."
  mkdir := fun _ => Except.ok ()
  writeFile := fun _ => Except.ok ()

/-- Invocation for the C7/C10 witnesses:
`--input-dir nope --output-file out.xml` with `nope` nonexistent. -/
def argsC10 : Args := ⟨some "nope", none, "out.xml"⟩

/-! ## Claim theorems -/

/-- C5: for every filesystem, the directory-scan sub-operation returns exactly
the entries `rglob` yields under the input directory whose lower-cased suffix
is in the extension set `\x7b.py, .ts, .jsx, .js, .tsx\x7d` — membership and
multiplicity agree, with no false positives and no omissions — and no
regular-file check is applied (the characterization does not mention
`FS.isFile`, so directories or other non-file entries with a matching suffix
are included). -/
theorem C5_directory_scan_exact (fs : FS) (d p : String) :
    (p ∈ get_target_files fs d EXTENSIONS ↔
      p ∈ fs.rglobEntries d ∧ strToLower (pathSuffix p) ∈ EXTENSIONS) ∧
    List.count p (get_target_files fs d EXTENSIONS) =
      (if strToLower (pathSuffix p) ∈ EXTENSIONS then List.count p (fs.rglobEntries d)
       else 0) := by
  constructor
  · simp [get_target_files, List.mem_filter]
  · by_cases h : strToLower (pathSuffix p) ∈ EXTENSIONS
    · rw [if_pos h]
      exact List.count_filter (by simpa using h)
    · rw [if_neg h]
      refine List.count_eq_zero.2 fun hmem => h ?_
      have := (List.mem_filter.1 hmem).2
      simpa using this

/-- C6: the explicit-file sub-operation keeps exactly the matching-extension
entries that are regular files, each resolved to absolute form, in input
order; it warns exactly once for each matching-extension entry that is not a
regular file; entries with non-matching extensions are dropped with no
warning, whether or not they exist. -/
theorem C6_explicit_filter_exact (fs : FS) (l : List String) :
    (filter_files_by_extension fs l EXTENSIONS).1 =
      (l.filter fun f =>
        EXTENSIONS.contains (strToLower (pathSuffix f)) && fs.isFile f).map fs.resolve ∧
    (filter_files_by_extension fs l EXTENSIONS).2 =
      (l.filter fun f =>
        EXTENSIONS.contains (strToLower (pathSuffix f)) && !fs.isFile f).map warnMsg := by
  induction l with
  | nil => exact ⟨rfl, rfl⟩
  | cons f rest ih =>
    obtain ⟨ih1, ih2⟩ := ih
    by_cases hext : strToLower (pathSuffix f) ∈ EXTENSIONS
    · by_cases hfile : fs.isFile f
      · simp [filter_files_by_extension, List.filter_cons, hext, hfile, ih1, ih2]
      · simp [filter_files_by_extension, List.filter_cons, hext, hfile, ih1, ih2]
    · simp [filter_files_by_extension, List.filter_cons, hext, ih1, ih2]

/-- C9: the produced document is a single attribute-free `<codebase>` root
with one `<file>` child per collected path; every `<file>` has exactly the
three attribute-free leaf children `filename`, `filepath`, `contents` in that
order, `filename` holding the path's last component and `filepath` the fully
resolved path. -/
theorem C9_document_shape (fs : FS) (files : List String) :
    (create_xml_structure fs files).tag = "codebase" ∧
    (create_xml_structure fs files).attrs = [] ∧
    (create_xml_structure fs files).children = files.map (fileElement fs) ∧
    ∀ p : String,
      (fileElement fs p).tag = "file" ∧
      (fileElement fs p).attrs = [] ∧
      (fileElement fs p).children.map Element.tag = ["filename", "filepath", "contents"] ∧
      (∀ c ∈ (fileElement fs p).children, c.attrs = [] ∧ c.children = []) ∧
      ((fileElement fs p).findChild "filename").bind Element.innerText =
        some (pathName p) ∧
      ((fileElement fs p).findChild "filepath").bind Element.innerText =
        some (fs.resolve p) ∧
      ((fileElement fs p).findChild "contents").bind Element.innerText =
        some (contentsString fs p) := by
  refine ⟨rfl, rfl, rfl, fun p => ⟨rfl, rfl, rfl, ?_, rfl, rfl, rfl⟩⟩
  intro c hc
  simp only [fileElement, Element.children, List.mem_cons, List.not_mem_nil, or_false]
    at hc
  rcases hc with h | h | h <;> subst h <;> exact ⟨rfl, rfl⟩



/-- Helper lemma: whenever the output stage is entered and either the
directory creation or the final write fails, the run ends with exit code 0,
nothing recorded as written, and an error-level log entry. -/
theorem writeOutput_failure (fs : FS) (outputFile pretty : String)
    (log : List (LogLevel × String)) (e : String)
    (hfail :
      (fs.pathExists (fs.parent outputFile) = false ∧
        fs.mkdir (fs.parent outputFile) = Except.error e) ∨
      ((fs.pathExists (fs.parent outputFile) = true ∨
          fs.mkdir (fs.parent outputFile) = Except.ok ()) ∧
        fs.writeFile outputFile = Except.error e)) :
    (writeOutput fs outputFile pretty log).exitCode = 0 ∧
    (writeOutput fs outputFile pretty log).written = none ∧
    ∃ m, (LogLevel.error, m) ∈ (writeOutput fs outputFile pretty log).log := by
  rcases hfail with ⟨hex, hmk⟩ | ⟨hok, hwr⟩
  · refine ⟨?_, ?_, ?_⟩ <;> simp [writeOutput, hex, hmk]
  · rcases hok with hex | hmk
    · refine ⟨?_, ?_, ?_⟩ <;> simp [writeOutput, writeStep, hex, hwr]
    · by_cases hex : fs.pathExists (fs.parent outputFile)
      · refine ⟨?_, ?_, ?_⟩ <;> simp [writeOutput, writeStep, hex, hwr]
      · refine ⟨?_, ?_, ?_⟩ <;>
          simp [writeOutput, writeStep, eq_false_intro hex, hmk, hwr]

/-- C2: for every collected path whose read succeeds with text C, the
document contains that path's `<file>` record and the record's `<contents>`
element carries exactly C (the script stores the decoded text unmodified;
rendering the tree to bytes and back is `xml.etree` / `minidom`, outside this
repository). -/
theorem C2_contents_roundtrip (fs : FS) (files : List String) (p C : String)
    (hp : p ∈ files) (hC : fs.readText p = Except.ok C) :
    fileElement fs p ∈ (create_xml_structure fs files).children ∧
    ((fileElement fs p).findChild "contents").bind Element.innerText = some C := by
  constructor
  · exact List.mem_map_of_mem (fileElement fs) hp
  · have h1 : ((fileElement fs p).findChild "contents").bind Element.innerText =
        some (contentsString fs p) := rfl
    rw [h1]
    unfold contentsString
    rw [hC]

/-- Witness for C2 at a concrete input: `a.py` among two collected files,
read succeeding with `print(1)`. -/
theorem C2_contents_roundtrip_witness :
    "a.py" ∈ (["a.py", "bad.py"] : List String) ∧
    fsWitness.readText "a.py" = Except.ok "print(1)" ∧
    (fileElement fsWitness "a.py" ∈
        (create_xml_structure fsWitness ["a.py", "bad.py"]).children ∧
      ((fileElement fsWitness "a.py").findChild "contents").bind Element.innerText =
        some "print(1)") :=
  ⟨by decide, by rfl,
    C2_contents_roundtrip fsWitness ["a.py", "bad.py"] "a.py" "print(1)"
      (by decide) (by rfl)⟩

/-- C3: for every collected path whose read or decode fails with description
e, that record's `<contents>` text is exactly the string
`Error reading file: ` followed by e, and every collected file — this one and
all the others — still yields its record (one `<file>` child per collected
path: the run is not aborted by the failure). -/
theorem C3_read_error_isolation (fs : FS) (files : List String) (p e : String)
    (hp : p ∈ files) (he : fs.readText p = Except.error e) :
    ((fileElement fs p).findChild "contents").bind Element.innerText =
      some ("Error reading file: " ++ e) ∧
    (create_xml_structure fs files).children = files.map (fileElement fs) ∧
    ∀ q ∈ files, fileElement fs q ∈ (create_xml_structure fs files).children := by
  refine ⟨?_, rfl, fun q hq => List.mem_map_of_mem (fileElement fs) hq⟩
  have h1 : ((fileElement fs p).findChild "contents").bind Element.innerText =
      some (contentsString fs p) := rfl
  rw [h1]
  unfold contentsString
  rw [he]

/-- Witness for C3 at a concrete input: `bad.py` fails to read with `boom`,
and both collected files still get records. -/
theorem C3_read_error_isolation_witness :
    "bad.py" ∈ (["a.py", "bad.py"] : List String) ∧
    fsWitness.readText "bad.py" = Except.error "boom" ∧
    (((fileElement fsWitness "bad.py").findChild "contents").bind Element.innerText =
        some ("Error reading file: " ++ "boom") ∧
      (create_xml_structure fsWitness ["a.py", "bad.py"]).children =
        (["a.py", "bad.py"] : List String).map (fileElement fsWitness) ∧
      ∀ q ∈ (["a.py", "bad.py"] : List String),
        fileElement fsWitness q ∈
          (create_xml_structure fsWitness ["a.py", "bad.py"]).children) :=
  ⟨by decide, by rfl,
    C3_read_error_isolation fsWitness ["a.py", "bad.py"] "bad.py" "boom"
      (by decide) (by rfl)⟩

/-- C8: with neither `--input-dir` nor any `--file` supplied, the process
exits with the usage-error status 2 (non-zero), prints a descriptive message
on standard error, and writes no output file — whether or not
`--output-file` itself was supplied. -/
theorem C8_usage_error (fs : FS) (out : Option String) :
    (main fs none none out).exitCode = 2 ∧
    (main fs none none out).exitCode ≠ 0 ∧
    (main fs none none out).written = none ∧
    (main fs none none out).stderrMsg ≠ none := by
  cases out with
  | none =>
    refine ⟨rfl, ?_, rfl, ?_⟩
    · have h2 : (main fs none none none).exitCode = 2 := rfl
      rw [h2]
      decide
    · have h3 : (main fs none none none).stderrMsg =
          some "the following arguments are required: --output-file" := rfl
      rw [h3]
      exact Option.some_ne_none _
  | some o =>
    refine ⟨rfl, ?_, rfl, ?_⟩
    · have h2 : (main fs none none (some o)).exitCode = 2 := rfl
      rw [h2]
      decide
    · have h3 : (main fs none none (some o)).stderrMsg =
          some "At least one of --input-dir or --file must be specified." := rfl
      rw [h3]
      exact Option.some_ne_none _

/-- C1 counterexample: with `--input-dir dir --file dir/a.py` on `fsC1`, the
single underlying file is reachable both ways — the scan yields it as the
path value `dir/a.py`, the explicit list as its resolved form
`/abs/dir/a.py` — yet the output document carries two `<file>` records whose
`<filepath>` is the resolved absolute path `/abs/dir/a.py`, not exactly one:
the set deduplicates by inserted path value, and scan results are inserted
unresolved. -/
theorem C1_dedup_counterexample :
    "dir/a.py" ∈ get_target_files fsC1 "dir" EXTENSIONS ∧
    "/abs/dir/a.py" ∈ (filter_files_by_extension fsC1 ["dir/a.py"] EXTENSIONS).1 ∧
    fsC1.resolve "dir/a.py" = "/abs/dir/a.py" ∧
    countRecordsWithFilepath
      (create_xml_structure fsC1 (collect fsC1 argsC1)) "/abs/dir/a.py" = 2 ∧
    countRecordsWithFilepath
      (create_xml_structure fsC1 (collect fsC1 argsC1)) "/abs/dir/a.py" ≠ 1 :=
  ⟨by decide, by decide, rfl, by decide, by decide⟩

/-- C1 (amended): the union of the two sub-operations is deduplicated by the
literal path value inserted into the set — directory-scan entries are
inserted as yielded (unresolved), explicit files resolved — so each distinct
inserted path value yields exactly one `<file>` record; a file reachable both
ways yields exactly one record only when those two path values coincide. -/
theorem C1_amended_dedup (fs : FS) (args : Args) :
    (collect fs args).Nodup ∧
    (∀ p, p ∈ collect fs args ↔
      p ∈ scanResult fs args ∨ p ∈ (indivResult fs args).1) ∧
    (create_xml_structure fs (collect fs args)).children =
      (collect fs args).map (fileElement fs) := by
  refine ⟨List.nodup_dedup _, fun p => ?_, rfl⟩
  unfold collect
  rw [List.mem_dedup, List.mem_append]

/-- C4: when the output stage is reached and either the creation of the
output file's parent directory or the final write fails, the error is
logged, nothing is successfully written, `main` returns without raising, and
the process exit code on that path is 0. -/
theorem C4_output_failure (fs : FS) (args : Args) (e : String)
    (hne : collect fs args ≠ [])
    (hfail :
      (fs.pathExists (fs.parent args.output_file) = false ∧
        fs.mkdir (fs.parent args.output_file) = Except.error e) ∨
      ((fs.pathExists (fs.parent args.output_file) = true ∨
          fs.mkdir (fs.parent args.output_file) = Except.ok ()) ∧
        fs.writeFile args.output_file = Except.error e)) :
    (mainRun fs args).exitCode = 0 ∧
    (mainRun fs args).written = none ∧
    ∃ m, (LogLevel.error, m) ∈ (mainRun fs args).log := by
  cases hc : collect fs args with
  | nil => exact absurd hc hne
  | cons a t =>
    have hgoal := writeOutput_failure fs args.output_file
      (prettify_xml (create_xml_structure fs (a :: t)))
      (collectLog fs args ++
        [(LogLevel.info, "Total unique files to process: " ++ toString (a :: t).length)] ++
        [(LogLevel.info, "Creating XML structure..."),
         (LogLevel.info, "Generating pretty XML...")]) e hfail
    simpa [mainRun, hc] using hgoal

/-- Witness for C4 at a concrete input: one collected file, output parent
directory missing, `mkdir` failing with `Permission denied`. -/
theorem C4_output_failure_witness :
    collect fsC4 argsC4 ≠ [] ∧
    fsC4.pathExists (fsC4.parent argsC4.output_file) = false ∧
    fsC4.mkdir (fsC4.parent argsC4.output_file) = Except.error "Permission denied" ∧
    ((mainRun fsC4 argsC4).exitCode = 0 ∧
      (mainRun fsC4 argsC4).written = none ∧
      ∃ m, (LogLevel.error, m) ∈ (mainRun fsC4 argsC4).log) :=
  ⟨by decide, rfl, rfl,
    C4_output_failure fsC4 argsC4 "Permission denied" (by decide)
      (Or.inl ⟨rfl, rfl⟩)⟩

/-- C7: an invocation whose combined collected set is empty logs the warning
`No files to process. Exiting.`, creates no output file, and terminates
successfully with exit code 0. -/
theorem C7_empty_collection (fs : FS) (args : Args)
    (h : collect fs args = []) :
    (mainRun fs args).exitCode = 0 ∧
    (mainRun fs args).written = none ∧
    (LogLevel.warning, "No files to process. Exiting.") ∈ (mainRun fs args).log := by
  refine ⟨?_, ?_, ?_⟩ <;> simp [mainRun, h]

/-- Witness for C7 at a concrete input: a scan of a directory with no
entries and no explicit files collects nothing. -/
theorem C7_empty_collection_witness :
    collect fsC10 argsC10 = [] ∧
    ((mainRun fsC10 argsC10).exitCode = 0 ∧
      (mainRun fsC10 argsC10).written = none ∧
      (LogLevel.warning, "No files to process. Exiting.") ∈ (mainRun fsC10 argsC10).log) :=
  ⟨rfl, C7_empty_collection fsC10 argsC10 rfl⟩

/-- C10: when `--input-dir` names a path for which the traversal yields
nothing (as `pathlib.Path.rglob` does for a nonexistent or non-directory
path) and no explicit file survives filtering, the run exits 0 without
writing an output file; no error is logged, and the only warnings possibly
logged are the explicit-file ones and the final
`No files to process. Exiting.` — none for the missing directory. -/
theorem C10_missing_dir_silent (fs : FS) (args : Args) (d : String)
    (hd : args.input_dir = some d)
    (hscan : fs.rglobEntries d = [])
    (hind : (indivResult fs args).1 = []) :
    (mainRun fs args).exitCode = 0 ∧
    (mainRun fs args).written = none ∧
    (∀ m, (LogLevel.error, m) ∉ (mainRun fs args).log) ∧
    (LogLevel.warning, "No files to process. Exiting.") ∈ (mainRun fs args).log ∧
    (∀ m, (LogLevel.warning, m) ∈ (mainRun fs args).log →
      m ∈ (indivResult fs args).2 ∨ m = "No files to process. Exiting.") := by
  have hs : scanResult fs args = [] := by
    simp [scanResult, hd, get_target_files, hscan]
  have hc : collect fs args = [] := by
    simp [collect, hs, hind]
  refine ⟨?_, ?_, ?_, ?_, ?_⟩
  · simp [mainRun, hc]
  · simp [mainRun, hc]
  · intro m hm
    by_cases hg : argGiven args.file <;>
      simp [mainRun, hc, collectLog, hd, hg, List.mem_append] at hm
  · simp [mainRun, hc]
  · intro m hm
    by_cases hg : argGiven args.file <;>
      simp [mainRun, hc, collectLog, hd, hg, List.mem_append] at hm <;>
      tauto

/-- Witness for C10 at a concrete input: `--input-dir nope` with a traversal
yielding nothing and no `--file` arguments. -/
theorem C10_missing_dir_silent_witness :
    argsC10.input_dir = some "nope" ∧
    fsC10.rglobEntries "nope" = [] ∧
    (indivResult fsC10 argsC10).1 = [] ∧
    ((mainRun fsC10 argsC10).exitCode = 0 ∧
      (mainRun fsC10 argsC10).written = none ∧
      (∀ m, (LogLevel.error, m) ∉ (mainRun fsC10 argsC10).log) ∧
      (LogLevel.warning, "No files to process. Exiting.") ∈ (mainRun fsC10 argsC10).log ∧
      (∀ m, (LogLevel.warning, m) ∈ (mainRun fsC10 argsC10).log →
        m ∈ (indivResult fsC10 argsC10).2 ∨ m = "No files to process. Exiting.")) :=
  ⟨rfl, rfl, rfl,
    C10_missing_dir_silent fsC10 argsC10 "nope" rfl rfl rfl⟩

end MergeXml
